import Mathlib

/-!
Shallow embedding of the voxel-to-mesh generation core of
three-voxel-loader (src/VoxelLoader.js): the `VoxelLoader` configuration
surface (`setVoxelMaterial`, `setVoxelSize`) and the `generateMesh`
algorithm that turns an octree of point-bearing leaves into one merged
box-per-voxel geometry.

Coordinates and colour channels are embedded as exact rationals (`ℚ`);
JavaScript `Math.round` is `⌊x + 1/2⌋` (round half towards +∞).
Fallible steps (property access on `undefined`) return `Except`.

The geometry-library primitives the source calls (`BoxGeometry`,
`BufferGeometryUtils.mergeBufferGeometries`, `translate`, the global
`THREE.BufferAttribute`, normal computation) are external to the
repository; they are modelled from the spec, which fixes the 24-vertex
(6 faces × 4 vertices) unshared-vertex box convention and describes the
accumulator as concatenation preserving per-vertex attributes.
-/

set_option autoImplicit false

set_option allowUnsafeReducibility true in
attribute [semireducible] Rat.mul Rat.add Rat.sub Rat.inv

/-- Decidable equality on `Except`, so that concrete runs of the embedded
fallible operations can be checked by evaluation. -/
instance {ε α : Type} [DecidableEq ε] [DecidableEq α] : DecidableEq (Except ε α) := fun
  | .error a, .error b =>
      if h : a = b then .isTrue (by rw [h])
      else .isFalse (by intro hc; cases hc; exact h rfl)
  | .error _, .ok _ => .isFalse (by intro hc; cases hc)
  | .ok _, .error _ => .isFalse (by intro hc; cases hc)
  | .ok a, .ok b =>
      if h : a = b then .isTrue (by rw [h])
      else .isFalse (by intro hc; cases hc; exact h rfl)

/-- A 3D vector with rational coordinates, modelling the three.js `Vector3`
operations used by `generateMesh` (`add`, `divideScalar`) and plain
`{x, y, z}` records (the `min`/`max` accumulators). -/
structure Vec3 where
  x : ℚ
  y : ℚ
  z : ℚ
deriving Repr, DecidableEq

/-- Componentwise vector addition (`Vector3.add`). -/
def vadd (a b : Vec3) : Vec3 := ⟨a.x + b.x, a.y + b.y, a.z + b.z⟩

/-- Componentwise negation (used for the `translate(-pos.x, -pos.y, -pos.z)`
restoration step). -/
def vneg (a : Vec3) : Vec3 := ⟨-a.x, -a.y, -a.z⟩

/-- Componentwise minimum (the `Math.min` updates of the `min` record). -/
def vmin (a b : Vec3) : Vec3 := ⟨min a.x b.x, min a.y b.y, min a.z b.z⟩

/-- Componentwise maximum (the `Math.max` updates of the `max` record). -/
def vmax (a b : Vec3) : Vec3 := ⟨max a.x b.x, max a.y b.y, max a.z b.z⟩

/-- `Vector3.divideScalar` by the point count `i`. -/
def vdiv (a : Vec3) (n : ℕ) : Vec3 := ⟨a.x / n, a.y / n, a.z / n⟩

/-- An RGB colour record, channels as stored on the voxel data
(0–255 before normalisation). -/
structure Color where
  r : ℚ
  g : ℚ
  b : ℚ
deriving Repr, DecidableEq

/-- One attribute record of a leaf (`leaf.data.data[i]` in the source).
The source tests the truthiness of its `color` field, so the field is
optional. -/
structure AttrRecord where
  color : Option Color
deriving Repr, DecidableEq

/-- A leaf of the octree as consumed by `generateMesh`: the payload
`leaf.data` carries a point list (`leaf.data.points`) and an attribute
record list (`leaf.data.data`).  A leaf whose payload is `null` or whose
point list is empty fails the source's truthiness guard
`leaf?.data?.points?.length`; both are represented by `points = []`. -/
structure Leaf where
  points : List Vec3
  data : List AttrRecord
deriving Repr, DecidableEq

/-- An octree, abstracted to the leaf traversal `octree.leaves()` that
`generateMesh` consumes, in traversal order. -/
structure Octree where
  leaves : List Leaf
deriving Repr, DecidableEq

/-- JavaScript `Math.round`: round half towards positive infinity,
`⌊q + 1/2⌋` (written with the executable `Rat.floor`). -/
def jsRound (q : ℚ) : ℤ := (q + 1 / 2).floor

/-- The source's 2-decimal rounding `Math.round(v * 100) / 100`. -/
def round2 (q : ℚ) : ℚ := (jsRound (q * 100) : ℚ) / 100

/-- A geometry buffer: vertex positions, an optional per-vertex colour
attribute, and triangles as index triples.  Normals are out-of-scope
geometry-library internals and are not tracked. -/
structure BufferGeometry where
  positions : List Vec3
  colors : Option (List Color)
  triangles : List (ℕ × ℕ × ℕ)
deriving Repr, DecidableEq

/-- Index triples of one box: per face `f` with base vertex `4*f`, the two
triangles `(a, b, d)` and `(b, c, d)` of the face's 2×2 vertex grid. -/
def boxTriangles : List (ℕ × ℕ × ℕ) :=
  [(0, 2, 1), (2, 3, 1),
   (4, 6, 5), (6, 7, 5),
   (8, 10, 9), (10, 11, 9),
   (12, 14, 13), (14, 15, 13),
   (16, 18, 17), (18, 19, 17),
   (20, 22, 21), (22, 23, 21)]

/-- Modelled from the spec: `new BoxGeometry(width, height, depth)` of the
external geometry library, using the spec's 24-vertex unshared-vertex
convention (6 faces × 4 vertices, faces in +x, −x, +y, −y, +z, −z order),
centred on the origin with half-extents `w/2`, `h/2`, `d/2`, and
12 triangles. -/
def boxGeometry (w h d : ℚ) : BufferGeometry :=
  let wh := w / 2
  let hh := h / 2
  let dh := d / 2
  { positions :=
      [⟨wh, hh, dh⟩, ⟨wh, hh, -dh⟩, ⟨wh, -hh, dh⟩, ⟨wh, -hh, -dh⟩,
       ⟨-wh, hh, -dh⟩, ⟨-wh, hh, dh⟩, ⟨-wh, -hh, -dh⟩, ⟨-wh, -hh, dh⟩,
       ⟨-wh, hh, -dh⟩, ⟨wh, hh, -dh⟩, ⟨-wh, hh, dh⟩, ⟨wh, hh, dh⟩,
       ⟨-wh, -hh, dh⟩, ⟨wh, -hh, dh⟩, ⟨-wh, -hh, -dh⟩, ⟨wh, -hh, -dh⟩,
       ⟨-wh, hh, dh⟩, ⟨wh, hh, dh⟩, ⟨-wh, -hh, dh⟩, ⟨wh, -hh, dh⟩,
       ⟨wh, hh, -dh⟩, ⟨-wh, hh, -dh⟩, ⟨wh, -hh, -dh⟩, ⟨-wh, -hh, -dh⟩],
    colors := none,
    triangles := boxTriangles }

/-- The normalised colour `(r/255, g/255, b/255)` written to every vertex. -/
def normColor (c : Color) : Color := ⟨c.r / 255, c.g / 255, c.b / 255⟩

/-- The colour-attribute loop of `generateMesh`: allocate a colour buffer of
`count = attributes.position.count` entries (via the global
`THREE.BufferAttribute`, modelled from the spec as an available
constructor) and set every vertex to the same normalised colour. -/
def setColorAll (g : BufferGeometry) (rgb : Color) : BufferGeometry :=
  { g with colors := some (List.replicate g.positions.length (normColor rgb)) }

/-- `BufferGeometry.translate(x, y, z)`: modelled from the spec as adding the
offset to every vertex position, leaving colours and triangles unchanged. -/
def BufferGeometry.translate (g : BufferGeometry) (v : Vec3) : BufferGeometry :=
  { g with positions := g.positions.map (fun p => vadd p v) }

/-- Modelled from the spec: merging of colour attributes when two geometries
are concatenated.  Both present concatenates; both absent stays absent; the
spec leaves mixed presence unspecified (§4.3 open question), and this model
drops the colour attribute in that case — no claim depends on the mixed
policy. -/
def mergeColors : Option (List Color) → Option (List Color) → Option (List Color)
  | some a, some b => some (a ++ b)
  | _, _ => none

/-- Modelled from the spec: `BufferGeometryUtils.mergeBufferGeometries`
concatenates vertex buffers and re-indexes the second geometry's triangles
past the first geometry's vertices. -/
def mergeBufferGeometries (a b : BufferGeometry) : BufferGeometry :=
  { positions := a.positions ++ b.positions,
    colors := mergeColors a.colors b.colors,
    triangles :=
      a.triangles ++ b.triangles.map
        (fun t => (t.1 + a.positions.length, t.2.1 + a.positions.length,
                   t.2.2 + a.positions.length)) }

/-- Modelled from the spec: `computeFaceNormals` computes normals only,
leaving positions, colours and triangles (the tracked fields) unchanged. -/
def computeFaceNormals (g : BufferGeometry) : BufferGeometry := g

/-- Modelled from the spec: `computeVertexNormals` computes normals only,
leaving positions, colours and triangles (the tracked fields) unchanged. -/
def computeVertexNormals (g : BufferGeometry) : BufferGeometry := g

/-- Errors observable from the embedded operations. `typeError` is the
JavaScript `TypeError` raised by property access on `undefined`; the other
two constructors are the spec's error taxonomy (§7), modelled from the spec
because no such classes exist in the source. -/
inductive VLError where
  | typeError : VLError
  | emptyResultError : VLError
  | invalidConfigurationError : VLError
deriving Repr, DecidableEq

/-- A shading material: the fields of the default
`MeshPhongMaterial({color: 0xffffff})` that the source touches. -/
structure Material where
  color : ℕ
  vertexColors : ℕ
deriving Repr, DecidableEq

/-- The three.js `VertexColors` constant assigned by `setVoxelMaterial`. -/
def VertexColors : ℕ := 2

/-- A fresh `MeshPhongMaterial({color: 0xffffff})`: white, with vertex
colours initially disabled (`NoColors = 0`). -/
def defaultMaterial : Material := { color := 0xffffff, vertexColors := 0 }

/-- The mutable `VoxelLoader` instance state touched by the claims:
`this.material` is a reference (index) into a material heap, `this.voxelSize`
the configured size. -/
structure VoxelLoader where
  material : Option ℕ
  voxelSize : ℚ
deriving Repr, DecidableEq

/-- `setVoxelMaterial(material)`: with no argument, allocate the default
material; then mutate the chosen material object in place, setting its
`vertexColors` field to `VertexColors`, and store the reference on the
loader.  Materials live in a heap (a list indexed by reference) so that the
in-place mutation and the sharing of the object are observable. -/
def setVoxelMaterial (heap : List Material) (s : VoxelLoader) :
    Option ℕ → List Material × VoxelLoader
  | none =>
      let ref := heap.length
      (heap ++ [{ defaultMaterial with vertexColors := VertexColors }],
       { s with material := some ref })
  | some ref =>
      (heap.set ref { (heap.getD ref defaultMaterial) with
                        vertexColors := VertexColors },
       { s with material := some ref })

/-- `setVoxelSize(voxelSize = 1)`: store the given size, defaulting to 1. -/
def setVoxelSize (s : VoxelLoader) (voxelSize : Option ℚ) : VoxelLoader :=
  { s with voxelSize := voxelSize.getD 1 }

/-- The `VoxelLoader` constructor: `material` and `voxelSize` start as
`null` and are immediately initialised by the constructor's own calls
`setVoxelMaterial()` and `setVoxelSize()`; the pre-initialisation `null`s
are never observable, so the record is built through those two calls,
starting from an empty material heap. -/
def newVoxelLoader : List Material × VoxelLoader :=
  let s0 : VoxelLoader := { material := none, voxelSize := 1 }
  let hs := setVoxelMaterial [] s0 none
  (hs.1, setVoxelSize hs.2 none)

/-- The produced mesh: the merged geometry paired with the loader's material
reference (`new Mesh(mergedGeometry, material)`). -/
structure Mesh where
  geometry : BufferGeometry
  material : Option ℕ
deriving Repr, DecidableEq

/-- One step of the scan loop over a leaf's points: accumulate the running
sum (`pos.add(point)`) and the componentwise minimum and maximum. -/
def scanStep (acc : Vec3 × Vec3 × Vec3) (p : Vec3) : Vec3 × Vec3 × Vec3 :=
  (vadd acc.1 p, vmin acc.2.1 p, vmax acc.2.2 p)

/-- The scan loop of `generateMesh`: `pos` starts at the origin, `min` and
`max` start at `points[0]`, and the loop runs over the whole point list
(index 0 included). -/
def scanPoints (p0 : Vec3) (pts : List Vec3) : Vec3 × Vec3 × Vec3 :=
  pts.foldl scanStep (⟨0, 0, 0⟩, p0, p0)

/-- The box descriptor computed for one leaf. -/
structure BoxDims where
  width : ℚ
  height : ℚ
  depth : ℚ
  center : Vec3
deriving Repr, DecidableEq

/-- The `if (rgb)` statement of `generateMesh`: when the first attribute
record's colour is truthy, attach the flat colour attribute; otherwise leave
the geometry untouched. -/
def applyColor (g : BufferGeometry) : Option Color → BufferGeometry
  | some rgb => setColorAll g rgb
  | none => g

/-- The per-leaf box computation of `generateMesh`: scan the points once,
then `width = round2(voxelSize + (max.x - min.x))` (and analogously for
height and depth) and `center = pos / i` with `i` the point count. -/
def leafBox (voxelSize : ℚ) (p0 : Vec3) (ps : List Vec3) : BoxDims :=
  let s := scanPoints p0 (p0 :: ps)
  { width := round2 (voxelSize + (s.2.2.x - s.2.1.x)),
    height := round2 (voxelSize + (s.2.2.y - s.2.1.y)),
    depth := round2 (voxelSize + (s.2.2.z - s.2.1.z)),
    center := vdiv s.1 (p0 :: ps).length }

/-- The body of `generateMesh`'s loop for one non-empty leaf: build the box
geometry from the leaf's box descriptor, read `leaf.data.data[0]` — a
`TypeError` when the attribute list is empty, since `.color` is then read
off `undefined` — attach the flat colour attribute when a colour is
present, and translate the geometry to the centroid.  The value merged into
the accumulator is the translated geometry; the source's final
`translate(-pos…)` only restores the discarded local box. -/
def buildVoxelGeometry (voxelSize : ℚ) (p0 : Vec3) (ps : List Vec3)
    (attrs : List AttrRecord) : Except VLError BufferGeometry :=
  let b := leafBox voxelSize p0 ps
  let voxelGeometry := boxGeometry b.width b.height b.depth
  match attrs with
  | [] => .error .typeError
  | data :: _ => .ok ((applyColor voxelGeometry data.color).translate b.center)

/-- One iteration of `generateMesh`'s leaf loop: leaves failing the
`leaf?.data?.points?.length` guard are skipped; otherwise the leaf's
geometry initialises the accumulator (first voxel) or is merged into it. -/
def stepLeaf (voxelSize : ℚ) (acc : Option BufferGeometry) (leaf : Leaf) :
    Except VLError (Option BufferGeometry) :=
  match leaf.points with
  | [] => .ok acc
  | p :: ps => do
      let g ← buildVoxelGeometry voxelSize p ps leaf.data
      match acc with
      | none => pure (some g)
      | some m => pure (some (mergeBufferGeometries m g))

/-- `generateMesh(octree)`: fold the leaf loop over the traversal, then call
`computeFaceNormals`/`computeVertexNormals` on the accumulator — a
`TypeError` when no leaf contributed, since `mergedGeometry` is still
`undefined` — and pair the geometry with the configured material. -/
def generateMesh (s : VoxelLoader) (octree : Octree) : Except VLError Mesh := do
  let merged ← octree.leaves.foldlM (stepLeaf s.voxelSize) (none : Option BufferGeometry)
  match merged with
  | none => .error .typeError
  | some g =>
      pure { geometry := computeVertexNormals (computeFaceNormals g),
             material := s.material }

/-! ## Spec-side observers

Definitions following the spec's phrasing (component-wise point extrema,
arithmetic mean), against which the scan loop is verified. -/

/-- Minimum of a coordinate list with starting value `x` (the spec's
component-wise minimum over a nonempty point sequence, seeded with the
first point's coordinate). -/
def qMin (x : ℚ) (l : List ℚ) : ℚ := l.foldr min x

/-- Maximum of a coordinate list with starting value `x`. -/
def qMax (x : ℚ) (l : List ℚ) : ℚ := l.foldr max x

/-- The coordinates of a point list along a projection. -/
def coords (f : Vec3 → ℚ) (l : List Vec3) : List ℚ := l.map f

/-- Sum of a list of vectors. -/
def vsum : List Vec3 → Vec3
  | [] => ⟨0, 0, 0⟩
  | p :: ps => vadd p (vsum ps)

/-- The arithmetic mean of a list of vectors: sum divided by count. -/
def vmean (l : List Vec3) : Vec3 := vdiv (vsum l) l.length

/-! ## Helper lemmas -/

theorem qMin_min (l : List ℚ) (a b : ℚ) : qMin (min a b) l = min b (qMin a l) := by
  induction l with
  | nil => simpa [qMin] using min_comm a b
  | cons c l ih => simp only [qMin, List.foldr] at ih ⊢; rw [ih, min_left_comm]

theorem qMax_max (l : List ℚ) (a b : ℚ) : qMax (max a b) l = max b (qMax a l) := by
  induction l with
  | nil => simpa [qMax] using max_comm a b
  | cons c l ih => simp only [qMax, List.foldr] at ih ⊢; rw [ih, max_left_comm]

theorem qMin_le_self (a : ℚ) (l : List ℚ) : qMin a l ≤ a := by
  induction l with
  | nil => exact le_refl a
  | cons c l ih => exact le_trans (min_le_right c (qMin a l)) ih

theorem self_le_qMax (a : ℚ) (l : List ℚ) : a ≤ qMax a l := by
  induction l with
  | nil => exact le_refl a
  | cons c l ih => exact le_trans ih (le_max_right c (qMax a l))

theorem qMin_le_qMax (a : ℚ) (l : List ℚ) : qMin a l ≤ qMax a l := by
  induction l with
  | nil => exact le_refl a
  | cons c l ih =>
      exact le_trans (min_le_right c (qMin a l))
        (le_trans ih (le_max_right c (qMax a l)))

theorem vadd_zero_right (a : Vec3) : vadd a ⟨0, 0, 0⟩ = a := by
  cases a; simp [vadd]

theorem Vec3.vadd_assoc (a b c : Vec3) : vadd (vadd a b) c = vadd a (vadd b c) := by
  cases a; cases b; cases c; simp [vadd, add_assoc]

/-- The scan loop computes, from any accumulator, the vector sum and the
spec's component-wise extrema seeded by the accumulator. -/
theorem foldl_scanStep_spec (l : List Vec3) :
    ∀ a m M : Vec3,
      l.foldl scanStep (a, m, M) =
        (vadd a (vsum l),
         ⟨qMin m.x (coords Vec3.x l), qMin m.y (coords Vec3.y l),
          qMin m.z (coords Vec3.z l)⟩,
         ⟨qMax M.x (coords Vec3.x l), qMax M.y (coords Vec3.y l),
          qMax M.z (coords Vec3.z l)⟩) := by
  induction l with
  | nil =>
      intro a m M
      cases m; cases M
      simp [vsum, vadd_zero_right, qMin, qMax, coords]
  | cons p l ih =>
      intro a m M
      show l.foldl scanStep (vadd a p, vmin m p, vmax M p) = _
      rw [ih]
      refine Prod.ext ?_ (Prod.ext ?_ ?_)
      · show vadd (vadd a p) (vsum l) = vadd a (vsum (p :: l))
        exact Vec3.vadd_assoc a p (vsum l)
      · show (⟨qMin (min m.x p.x) _, qMin (min m.y p.y) _, qMin (min m.z p.z) _⟩ : Vec3) = _
        simp only [coords, List.map]
        rw [qMin_min, qMin_min, qMin_min]
        rfl
      · show (⟨qMax (max M.x p.x) _, qMax (max M.y p.y) _, qMax (max M.z p.z) _⟩ : Vec3) = _
        simp only [coords, List.map]
        rw [qMax_max, qMax_max, qMax_max]
        rfl

theorem vadd_zero_left (a : Vec3) : vadd ⟨0, 0, 0⟩ a = a := by
  cases a; simp [vadd]

theorem qMin_cons_self (a : ℚ) (l : List ℚ) : qMin a (a :: l) = qMin a l :=
  min_eq_right (qMin_le_self a l)

theorem qMax_cons_self (a : ℚ) (l : List ℚ) : qMax a (a :: l) = qMax a l :=
  max_eq_right (self_le_qMax a l)

/-- The one-pass scan of `generateMesh` (seeded at `points[0]` and run over
the whole list, the seed included) computes the vector sum and the spec's
component-wise extrema of the leaf's points. -/
theorem scanPoints_spec (p0 : Vec3) (ps : List Vec3) :
    scanPoints p0 (p0 :: ps) =
      (vsum (p0 :: ps),
       ⟨qMin p0.x (coords Vec3.x ps), qMin p0.y (coords Vec3.y ps),
        qMin p0.z (coords Vec3.z ps)⟩,
       ⟨qMax p0.x (coords Vec3.x ps), qMax p0.y (coords Vec3.y ps),
        qMax p0.z (coords Vec3.z ps)⟩) := by
  unfold scanPoints
  rw [foldl_scanStep_spec]
  refine Prod.ext (vadd_zero_left _) (Prod.ext ?_ ?_)
  · show (⟨qMin p0.x (coords Vec3.x (p0 :: ps)), _, _⟩ : Vec3) = _
    simp only [coords, List.map]
    rw [qMin_cons_self, qMin_cons_self, qMin_cons_self]
  · show (⟨qMax p0.x (coords Vec3.x (p0 :: ps)), _, _⟩ : Vec3) = _
    simp only [coords, List.map]
    rw [qMax_cons_self, qMax_cons_self, qMax_cons_self]

/-- The per-leaf box descriptor, re-expressed through the spec-side extrema
and arithmetic mean. -/
theorem leafBox_spec (vs : ℚ) (p0 : Vec3) (ps : List Vec3) :
    leafBox vs p0 ps =
      { width := round2 (vs + (qMax p0.x (coords Vec3.x ps) - qMin p0.x (coords Vec3.x ps))),
        height := round2 (vs + (qMax p0.y (coords Vec3.y ps) - qMin p0.y (coords Vec3.y ps))),
        depth := round2 (vs + (qMax p0.z (coords Vec3.z ps) - qMin p0.z (coords Vec3.z ps))),
        center := vmean (p0 :: ps) } := by
  unfold leafBox
  rw [scanPoints_spec]
  rfl

theorem ratFloor_eq_intFloor (q : ℚ) : q.floor = ⌊q⌋ :=
  (Rat.floor_def' q).trans Rat.floor_def.symm

theorem round2_mono {a b : ℚ} (h : a ≤ b) : round2 a ≤ round2 b := by
  unfold round2 jsRound
  rw [ratFloor_eq_intFloor, ratFloor_eq_intFloor]
  have h1 : ⌊a * 100 + 1 / 2⌋ ≤ ⌊b * 100 + 1 / 2⌋ :=
    Int.floor_le_floor
      (add_le_add_right (mul_le_mul_of_nonneg_right h (by norm_num)) _)
  exact (div_le_div_iff_of_pos_right (by norm_num)).mpr (Int.cast_le.mpr h1)

/-- The 24 vertices of a box geometry sum to zero: the box is centred on the
origin in local space. -/
theorem vsum_boxGeometry (w h d : ℚ) :
    vsum (boxGeometry w h d).positions = ⟨0, 0, 0⟩ := by
  simp only [boxGeometry, vsum, vadd]
  refine congrArg₂ (fun u v => Vec3.mk u v _) ?_ ?_ |>.trans (congrArg _ ?_) <;> ring_nf

theorem vsum_map_vadd (l : List Vec3) (v : Vec3) :
    vsum (l.map (fun p => vadd p v)) =
      vadd (vsum l) ⟨l.length * v.x, l.length * v.y, l.length * v.z⟩ := by
  induction l with
  | nil => simp [vsum, vadd]
  | cons p l ih =>
      show vadd (vadd p v) (vsum (l.map (fun q => vadd q v))) = _
      rw [ih]
      show _ = vadd (vadd p (vsum l)) _
      simp only [vadd, List.length_cons]
      refine congrArg₂ (fun u w => Vec3.mk u w _) ?_ ?_ |>.trans (congrArg _ ?_) <;>
        push_cast <;> ring

/-- Translating a geometry whose vertices sum to zero puts its arithmetic
mean at the translation target. -/
theorem vmean_translate_of_vsum_zero (g : BufferGeometry) (c : Vec3)
    (hg : vsum g.positions = ⟨0, 0, 0⟩) (hn : g.positions.length ≠ 0) :
    vmean (g.translate c).positions = c := by
  unfold vmean BufferGeometry.translate
  simp only [List.length_map, vsum_map_vadd, hg, vadd_zero_left]
  have hq : (g.positions.length : ℚ) ≠ 0 := Nat.cast_ne_zero.mpr hn
  cases c
  simp only [vdiv]
  exact congrArg₂ (fun u v => Vec3.mk u v _) (mul_div_cancel_left₀ _ hq)
    (mul_div_cancel_left₀ _ hq) |>.trans
    (congrArg _ (mul_div_cancel_left₀ _ hq))

/-- The spec's K: the number of leaves passing the non-empty-points guard. -/
def nonEmptyLeafCount (leaves : List Leaf) : ℕ :=
  leaves.countP (fun l => !l.points.isEmpty)

/-- Vertex count of an accumulator (`undefined` counts as zero vertices). -/
def posCount : Option BufferGeometry → ℕ
  | none => 0
  | some g => g.positions.length

/-- Triangle count of an accumulator. -/
def triCount : Option BufferGeometry → ℕ
  | none => 0
  | some g => g.triangles.length

theorem applyColor_positions (g : BufferGeometry) (oc : Option Color) :
    (applyColor g oc).positions = g.positions := by
  cases oc <;> rfl

theorem applyColor_triangles (g : BufferGeometry) (oc : Option Color) :
    (applyColor g oc).triangles = g.triangles := by
  cases oc <;> rfl

theorem translate_positions_length (g : BufferGeometry) (v : Vec3) :
    (g.translate v).positions.length = g.positions.length :=
  List.length_map _ _

theorem translate_triangles (g : BufferGeometry) (v : Vec3) :
    (g.translate v).triangles = g.triangles := rfl

theorem translate_colors (g : BufferGeometry) (v : Vec3) :
    (g.translate v).colors = g.colors := rfl

/-- On a leaf with at least one point and at least one attribute record, the
loop body succeeds and emits the translated, optionally coloured box. -/
theorem buildVoxelGeometry_cons (vs : ℚ) (p0 : Vec3) (ps : List Vec3)
    (a : AttrRecord) (rest : List AttrRecord) :
    buildVoxelGeometry vs p0 ps (a :: rest) =
      .ok ((applyColor
              (boxGeometry (leafBox vs p0 ps).width (leafBox vs p0 ps).height
                (leafBox vs p0 ps).depth) a.color).translate
            (leafBox vs p0 ps).center) := rfl

theorem buildVoxelGeometry_ok_shape (vs : ℚ) (p0 : Vec3) (ps : List Vec3)
    (attrs : List AttrRecord) (g : BufferGeometry)
    (h : buildVoxelGeometry vs p0 ps attrs = .ok g) :
    ∃ a rest, attrs = a :: rest ∧
      g = (applyColor
            (boxGeometry (leafBox vs p0 ps).width (leafBox vs p0 ps).height
              (leafBox vs p0 ps).depth) a.color).translate
            (leafBox vs p0 ps).center := by
  cases attrs with
  | nil => exact absurd h (by simp [buildVoxelGeometry])
  | cons a rest =>
      rw [buildVoxelGeometry_cons] at h
      exact ⟨a, rest, rfl, (Except.ok.inj h).symm⟩

theorem buildVoxelGeometry_ok_counts (vs : ℚ) (p0 : Vec3) (ps : List Vec3)
    (attrs : List AttrRecord) (g : BufferGeometry)
    (h : buildVoxelGeometry vs p0 ps attrs = .ok g) :
    g.positions.length = 24 ∧ g.triangles.length = 12 := by
  obtain ⟨a, rest, -, hg⟩ := buildVoxelGeometry_ok_shape vs p0 ps attrs g h
  subst hg
  constructor
  · rw [translate_positions_length, applyColor_positions]
    rfl
  · rw [translate_triangles, applyColor_triangles]
    rfl

theorem merge_positions_length (a b : BufferGeometry) :
    (mergeBufferGeometries a b).positions.length =
      a.positions.length + b.positions.length :=
  List.length_append _ _

theorem merge_triangles_length (a b : BufferGeometry) :
    (mergeBufferGeometries a b).triangles.length =
      a.triangles.length + b.triangles.length := by
  show (a.triangles ++ _).length = _
  rw [List.length_append, List.length_map]

/-- Leaves that fail the points guard leave the accumulator untouched. -/
theorem foldlM_stepLeaf_all_empty (vs : ℚ) :
    ∀ (leaves : List Leaf) (acc : Option BufferGeometry),
      (∀ l ∈ leaves, l.points = []) →
      leaves.foldlM (stepLeaf vs) acc = .ok acc := by
  intro leaves
  induction leaves with
  | nil => intro acc _; rfl
  | cons l ls ih =>
      intro acc h
      have hl : l.points = [] := h l (List.mem_cons_self l ls)
      rw [List.foldlM_cons]
      show stepLeaf vs acc l >>= _ = _
      rw [show stepLeaf vs acc l = .ok acc by unfold stepLeaf; rw [hl]]
      exact ih acc (fun x hx => h x (List.mem_cons_of_mem l hx))

/-- One loop iteration on a leaf with points and at least one attribute
record always succeeds and grows the accumulator by exactly one box: 24
vertices and 12 triangles. -/
theorem stepLeaf_nonempty (vs : ℚ) (acc : Option BufferGeometry) (l : Leaf)
    (p : Vec3) (ps : List Vec3) (a : AttrRecord) (rest : List AttrRecord)
    (hp : l.points = p :: ps) (ha : l.data = a :: rest) :
    ∃ g', stepLeaf vs acc l = .ok (some g') ∧
      g'.positions.length = posCount acc + 24 ∧
      g'.triangles.length = triCount acc + 12 := by
  have hg0 : buildVoxelGeometry vs p ps l.data =
      .ok ((applyColor
              (boxGeometry (leafBox vs p ps).width (leafBox vs p ps).height
                (leafBox vs p ps).depth) a.color).translate
            (leafBox vs p ps).center) := by
    rw [ha]; exact buildVoxelGeometry_cons vs p ps a rest
  have hc0 := buildVoxelGeometry_ok_counts vs p ps l.data _ hg0
  set g0 : BufferGeometry :=
    (applyColor
        (boxGeometry (leafBox vs p ps).width (leafBox vs p ps).height
          (leafBox vs p ps).depth) a.color).translate
      (leafBox vs p ps).center with hg0def
  cases acc with
  | none =>
      refine ⟨g0, ?_, ?_, ?_⟩
      · show stepLeaf vs none l = _
        unfold stepLeaf
        rw [hp]
        show buildVoxelGeometry vs p ps l.data >>= _ = _
        rw [hg0]
        rfl
      · simpa [posCount] using hc0.1
      · simpa [triCount] using hc0.2
  | some m =>
      refine ⟨mergeBufferGeometries m g0, ?_, ?_, ?_⟩
      · show stepLeaf vs (some m) l = _
        unfold stepLeaf
        rw [hp]
        show buildVoxelGeometry vs p ps l.data >>= _ = _
        rw [hg0]
        rfl
      · rw [merge_positions_length, hc0.1]; rfl
      · rw [merge_triangles_length, hc0.2]; rfl

/-- The leaf fold of `generateMesh` over well-formed leaves (every leaf with
points has an attribute record) succeeds and contributes exactly 24 vertices
and 12 triangles per leaf passing the guard; empty leaves contribute
nothing. -/
theorem foldlM_stepLeaf_counts (vs : ℚ) :
    ∀ (leaves : List Leaf) (acc : Option BufferGeometry),
      (∀ l ∈ leaves, l.points ≠ [] → l.data ≠ []) →
      ∃ r : Option BufferGeometry,
        leaves.foldlM (stepLeaf vs) acc = .ok r ∧
        posCount r = posCount acc + 24 * nonEmptyLeafCount leaves ∧
        triCount r = triCount acc + 12 * nonEmptyLeafCount leaves ∧
        r.isSome = (acc.isSome || decide (0 < nonEmptyLeafCount leaves)) := by
  intro leaves
  induction leaves with
  | nil =>
      intro acc _
      exact ⟨acc, rfl, by simp [nonEmptyLeafCount], by simp [nonEmptyLeafCount],
        by simp [nonEmptyLeafCount]⟩
  | cons l ls ih =>
      intro acc h
      have hls : ∀ x ∈ ls, x.points ≠ [] → x.data ≠ [] :=
        fun x hx => h x (List.mem_cons_of_mem l hx)
      cases hp : l.points with
      | nil =>
          have hcnt : nonEmptyLeafCount (l :: ls) = nonEmptyLeafCount ls := by
            simp [nonEmptyLeafCount, List.countP_cons, hp]
          obtain ⟨r, hr, h1, h2, h3⟩ := ih acc hls
          refine ⟨r, ?_, by rw [hcnt]; exact h1, by rw [hcnt]; exact h2,
            by rw [hcnt]; exact h3⟩
          rw [List.foldlM_cons]
          show stepLeaf vs acc l >>= _ = _
          rw [show stepLeaf vs acc l = .ok acc by unfold stepLeaf; rw [hp]]
          exact hr
      | cons p ps =>
          have hd : l.data ≠ [] :=
            h l (List.mem_cons_self l ls) (by rw [hp]; exact List.cons_ne_nil p ps)
          obtain ⟨a, rest, ha⟩ : ∃ a rest, l.data = a :: rest := by
            cases hd2 : l.data with
            | nil => exact absurd hd2 hd
            | cons a rest => exact ⟨a, rest, rfl⟩
          have hcnt : nonEmptyLeafCount (l :: ls) = nonEmptyLeafCount ls + 1 := by
            simp [nonEmptyLeafCount, List.countP_cons, hp]
          obtain ⟨g', hstep, hg1, hg2⟩ := stepLeaf_nonempty vs acc l p ps a rest hp ha
          obtain ⟨r, hr, h1, h2, h3⟩ := ih (some g') hls
          refine ⟨r, ?_, ?_, ?_, ?_⟩
          · rw [List.foldlM_cons]
            show stepLeaf vs acc l >>= _ = _
            rw [hstep]
            exact hr
          · rw [h1, hcnt]
            show g'.positions.length + 24 * nonEmptyLeafCount ls = _
            rw [hg1]
            ring
          · rw [h2, hcnt]
            show g'.triangles.length + 12 * nonEmptyLeafCount ls = _
            rw [hg2]
            ring
          · rw [h3, hcnt]
            simp

/-! ## Claim theorems -/

/-- C8: translating a box geometry by a centroid vector and then by its
negation returns every vertex to its original local-space position (exactly,
in this exact-arithmetic embedding). -/
theorem translate_roundtrip (g : BufferGeometry) (p : Vec3) :
    (g.translate p).translate (vneg p) = g := by
  cases g with
  | mk pos cols tris =>
      simp only [BufferGeometry.translate, List.map_map]
      have hf : ((fun q => vadd q (vneg p)) ∘ fun q => vadd q p) = id := by
        funext v
        cases v; cases p
        simp [vadd, vneg, Function.comp]
      rw [hf, List.map_id]

/-- C6 counterexample: with `voxelSize = 1.004` (`251/250`) and a single
point, the computed width is `round2(1.004) = 1`, not `voxelSize` exactly. -/
theorem single_point_not_exact_voxelSize :
    (leafBox (251 / 250) ⟨0, 0, 0⟩ []).width = 1 ∧ (1 : ℚ) ≠ 251 / 250 := by
  decide

/-- C6 (amended): for a leaf containing exactly one point, all three box
dimensions equal `round2 voxelSize` (hence `voxelSize` exactly only when
`voxelSize` is unchanged by 2-decimal rounding, as the default 1 is), and
the centre is the point itself. -/
theorem single_point_box_dims (vs : ℚ) (p : Vec3) :
    (leafBox vs p []).width = round2 vs ∧
    (leafBox vs p []).height = round2 vs ∧
    (leafBox vs p []).depth = round2 vs ∧
    (leafBox vs p []).center = p := by
  rw [leafBox_spec]
  refine ⟨?_, ?_, ?_, ?_⟩
  · show round2 (vs + (qMax p.x [] - qMin p.x [])) = round2 vs
    exact congrArg round2 (by show vs + (p.x - p.x) = vs; ring)
  · show round2 (vs + (qMax p.y [] - qMin p.y [])) = round2 vs
    exact congrArg round2 (by show vs + (p.y - p.y) = vs; ring)
  · show round2 (vs + (qMax p.z [] - qMin p.z [])) = round2 vs
    exact congrArg round2 (by show vs + (p.z - p.z) = vs; ring)
  · show vmean [p] = p
    cases p
    simp [vmean, vsum, vadd, vdiv]

/-- C5 counterexample: with the positive `voxelSize = 1/1000` and a single
point, the computed width `round2(1/1000) = 0` is strictly below
`voxelSize`. -/
theorem leaf_dims_below_voxelSize :
    (0 : ℚ) < 1 / 1000 ∧ (leafBox (1 / 1000) ⟨0, 0, 0⟩ []).width < 1 / 1000 := by
  decide

/-- C5 (amended): for every processed non-empty leaf, each computed box
dimension is at least `round2 voxelSize` (the rounding applied to the
voxel size itself); the unrounded `voxelSize` can exceed a dimension by up
to half a rounding step. -/
theorem leaf_dims_ge_round2_voxelSize (vs : ℚ) (p0 : Vec3) (ps : List Vec3)
    (_hvs : 0 < vs) :
    round2 vs ≤ (leafBox vs p0 ps).width ∧
    round2 vs ≤ (leafBox vs p0 ps).height ∧
    round2 vs ≤ (leafBox vs p0 ps).depth := by
  rw [leafBox_spec]
  exact
    ⟨round2_mono (le_add_of_nonneg_right (sub_nonneg.mpr (qMin_le_qMax _ _))),
     round2_mono (le_add_of_nonneg_right (sub_nonneg.mpr (qMin_le_qMax _ _))),
     round2_mono (le_add_of_nonneg_right (sub_nonneg.mpr (qMin_le_qMax _ _)))⟩

/-- C5 witness: the amended bound at `voxelSize = 1` on a two-point leaf. -/
theorem leaf_dims_ge_round2_voxelSize_witness :
    round2 1 ≤ (leafBox 1 ⟨0, 0, 0⟩ [⟨2, 3, 4⟩]).width ∧
    round2 1 ≤ (leafBox 1 ⟨0, 0, 0⟩ [⟨2, 3, 4⟩]).height ∧
    round2 1 ≤ (leafBox 1 ⟨0, 0, 0⟩ [⟨2, 3, 4⟩]).depth :=
  leaf_dims_ge_round2_voxelSize 1 ⟨0, 0, 0⟩ [⟨2, 3, 4⟩] (by norm_num)

/-- C7 counterexample: a leaf with one point and zero attribute records
makes `generateMesh` fail with a `TypeError` (reading `.color` of the
`undefined` first attribute record), rather than emitting a colourless
box. -/
theorem no_attr_record_fails :
    generateMesh newVoxelLoader.2 ⟨[⟨[⟨0, 0, 0⟩], []⟩]⟩ = .error .typeError := by
  decide

/-- C7 (amended): reading the first attribute record of a leaf with points
but zero attribute records is not total: `leaf.data.data[0]` is `undefined`
and the `.color` access throws, so `generateMesh` fails with a `TypeError`
on any octree whose traversal reaches such a leaf first; no box is emitted
for it. -/
theorem generateMesh_no_attr_typeError (s : VoxelLoader) (p : Vec3)
    (ps : List Vec3) (ls : List Leaf) :
    generateMesh s ⟨⟨p :: ps, []⟩ :: ls⟩ = .error .typeError := by
  unfold generateMesh
  rw [List.foldlM_cons]
  rfl

/-- C2 counterexample: on an octree whose only leaf has no points,
`generateMesh` fails with a `TypeError` (calling `computeFaceNormals` on the
`undefined` accumulator), which is not the spec's `EmptyResultError`. -/
theorem empty_octree_not_emptyResultError :
    generateMesh newVoxelLoader.2 ⟨[⟨[], []⟩]⟩ = .error .typeError ∧
    VLError.typeError ≠ VLError.emptyResultError := by
  decide

/-- C2 (amended): for every octree in which no leaf has a non-empty point
sequence, `generateMesh` fails — but with a JavaScript `TypeError` from
using the still-`undefined` merged geometry, not with `EmptyResultError`
(no such error exists in the source). -/
theorem generateMesh_no_points_typeError (s : VoxelLoader) (oct : Octree)
    (h : ∀ l ∈ oct.leaves, l.points = []) :
    generateMesh s oct = .error .typeError := by
  unfold generateMesh
  rw [foldlM_stepLeaf_all_empty s.voxelSize oct.leaves none h]
  rfl

/-- C2 witness: the amended behaviour on the octree with an empty leaf
traversal. -/
theorem generateMesh_no_points_typeError_witness :
    generateMesh newVoxelLoader.2 ⟨[]⟩ = .error .typeError :=
  generateMesh_no_points_typeError newVoxelLoader.2 ⟨[]⟩ (by simp)

/-- C9 counterexample: `setVoxelSize(-1)` raises no
`InvalidConfigurationError` — the non-positive value is stored and then used
by `generateMesh`, which succeeds and builds a box with the formula's
(negative) dimensions. -/
theorem setVoxelSize_accepts_negative :
    (setVoxelSize newVoxelLoader.2 (some (-1))).voxelSize = -1 ∧
    generateMesh (setVoxelSize newVoxelLoader.2 (some (-1)))
        ⟨[⟨[⟨0, 0, 0⟩], [⟨none⟩]⟩]⟩ =
      .ok ⟨boxGeometry (-1) (-1) (-1), some 0⟩ := by
  decide

/-- C9 (amended): `setVoxelSize` performs no validation and cannot fail: it
stores whatever value is supplied (defaulting to 1), touches nothing else,
and `generateMesh` consumes exactly the stored value — so non-positive
values flow into mesh generation unimpeded. -/
theorem setVoxelSize_no_validation (s : VoxelLoader) (v : ℚ) :
    (setVoxelSize s (some v)).voxelSize = v ∧
    (setVoxelSize s none).voxelSize = 1 ∧
    (setVoxelSize s (some v)).material = s.material ∧
    ∀ oct : Octree,
      generateMesh (setVoxelSize s (some v)) oct =
        generateMesh { material := s.material, voxelSize := v } oct :=
  ⟨rfl, rfl, rfl, fun _ => rfl⟩

/-- C3 counterexample: an octree with two leaves that both have points
(K = 2, M = 0), the second carrying zero attribute records, makes
`generateMesh` fail instead of producing a 2-box, 24-triangle geometry. -/
theorem counts_claim_fails_without_attrs :
    nonEmptyLeafCount [⟨[⟨0, 0, 0⟩], [⟨some ⟨255, 0, 0⟩⟩]⟩, ⟨[⟨2, 0, 0⟩], []⟩] = 2 ∧
    generateMesh newVoxelLoader.2
        ⟨[⟨[⟨0, 0, 0⟩], [⟨some ⟨255, 0, 0⟩⟩]⟩, ⟨[⟨2, 0, 0⟩], []⟩]⟩ =
      .error .typeError := by
  decide

/-- C3 (amended): for every octree whose leaves with points all carry at
least one attribute record and with K ≥ 1 such leaves, `generateMesh`
returns a mesh whose combined geometry holds exactly K independent boxes:
24·K vertices and 12·K triangles, independent of the number of leaves with
zero points, which are skipped. -/
theorem generateMesh_counts (s : VoxelLoader) (oct : Octree)
    (hwf : ∀ l ∈ oct.leaves, l.points ≠ [] → l.data ≠ [])
    (hK : 0 < nonEmptyLeafCount oct.leaves) :
    ∃ m, generateMesh s oct = .ok m ∧
      m.geometry.positions.length = 24 * nonEmptyLeafCount oct.leaves ∧
      m.geometry.triangles.length = 12 * nonEmptyLeafCount oct.leaves := by
  obtain ⟨r, hr, h1, h2, h3⟩ := foldlM_stepLeaf_counts s.voxelSize oct.leaves none hwf
  have hsome : r.isSome = true := by
    rw [h3]
    simp [hK]
  obtain ⟨g, rfl⟩ : ∃ g, r = some g := by
    cases r with
    | none => exact absurd hsome (by simp)
    | some g => exact ⟨g, rfl⟩
  refine ⟨⟨g, s.material⟩, ?_, ?_, ?_⟩
  · unfold generateMesh
    rw [hr]
    rfl
  · simpa [posCount] using h1
  · simpa [triCount] using h2

/-- C3 witness: the amended count law on a concrete octree with K = 2
non-empty leaves (one coloured, one not) and M = 1 empty leaf. -/
theorem generateMesh_counts_witness :
    ∃ m,
      generateMesh newVoxelLoader.2
          ⟨[⟨[⟨0, 0, 0⟩], [⟨some ⟨255, 0, 0⟩⟩]⟩, ⟨[], []⟩,
            ⟨[⟨0, 0, 0⟩, ⟨2, 0, 0⟩], [⟨none⟩]⟩]⟩ = .ok m ∧
      m.geometry.positions.length =
        24 * nonEmptyLeafCount
          [⟨[⟨0, 0, 0⟩], [⟨some ⟨255, 0, 0⟩⟩]⟩, ⟨[], []⟩,
           ⟨[⟨0, 0, 0⟩, ⟨2, 0, 0⟩], [⟨none⟩]⟩] ∧
      m.geometry.triangles.length =
        12 * nonEmptyLeafCount
          [⟨[⟨0, 0, 0⟩], [⟨some ⟨255, 0, 0⟩⟩]⟩, ⟨[], []⟩,
           ⟨[⟨0, 0, 0⟩, ⟨2, 0, 0⟩], [⟨none⟩]⟩] :=
  generateMesh_counts newVoxelLoader.2
    ⟨[⟨[⟨0, 0, 0⟩], [⟨some ⟨255, 0, 0⟩⟩]⟩, ⟨[], []⟩,
      ⟨[⟨0, 0, 0⟩, ⟨2, 0, 0⟩], [⟨none⟩]⟩]⟩
    (by decide) (by decide)

/-- C1: for every leaf with a non-empty point sequence that `generateMesh`
processes to emission, the box is built with width, height and depth equal
to `round2(voxelSize + (max − min))` over the leaf's component-wise point
extrema, and the emitted geometry is centred (arithmetic mean of its
vertices) at the arithmetic mean of the leaf's points. -/
theorem emitted_box_dims_and_centroid (vs : ℚ) (p0 : Vec3) (ps : List Vec3)
    (attrs : List AttrRecord) (g : BufferGeometry)
    (h : buildVoxelGeometry vs p0 ps attrs = .ok g) :
    (leafBox vs p0 ps).width =
      round2 (vs + (qMax p0.x (coords Vec3.x ps) - qMin p0.x (coords Vec3.x ps))) ∧
    (leafBox vs p0 ps).height =
      round2 (vs + (qMax p0.y (coords Vec3.y ps) - qMin p0.y (coords Vec3.y ps))) ∧
    (leafBox vs p0 ps).depth =
      round2 (vs + (qMax p0.z (coords Vec3.z ps) - qMin p0.z (coords Vec3.z ps))) ∧
    vmean g.positions = vmean (p0 :: ps) := by
  obtain ⟨a, rest, -, hg⟩ := buildVoxelGeometry_ok_shape vs p0 ps attrs g h
  refine ⟨congrArg BoxDims.width (leafBox_spec vs p0 ps),
    congrArg BoxDims.height (leafBox_spec vs p0 ps),
    congrArg BoxDims.depth (leafBox_spec vs p0 ps), ?_⟩
  subst hg
  have hsum :
      vsum (applyColor
          (boxGeometry (leafBox vs p0 ps).width (leafBox vs p0 ps).height
            (leafBox vs p0 ps).depth) a.color).positions = ⟨0, 0, 0⟩ := by
    rw [applyColor_positions]
    exact vsum_boxGeometry _ _ _
  have hlen :
      (applyColor
          (boxGeometry (leafBox vs p0 ps).width (leafBox vs p0 ps).height
            (leafBox vs p0 ps).depth) a.color).positions.length ≠ 0 := by
    rw [applyColor_positions]
    show 24 ≠ 0
    norm_num
  rw [vmean_translate_of_vsum_zero _ _ hsum hlen]
  exact congrArg BoxDims.center (leafBox_spec vs p0 ps)

/-- C1 witness: the dimension formulas and centroid on the concrete leaf
with points (0,0,0) and (2,0,0) at `voxelSize = 1`. -/
theorem emitted_box_dims_and_centroid_witness :
    (leafBox 1 ⟨0, 0, 0⟩ [⟨2, 0, 0⟩]).width =
      round2 (1 + (qMax (0 : ℚ) (coords Vec3.x [⟨2, 0, 0⟩]) -
        qMin (0 : ℚ) (coords Vec3.x [⟨2, 0, 0⟩]))) ∧
    (leafBox 1 ⟨0, 0, 0⟩ [⟨2, 0, 0⟩]).height =
      round2 (1 + (qMax (0 : ℚ) (coords Vec3.y [⟨2, 0, 0⟩]) -
        qMin (0 : ℚ) (coords Vec3.y [⟨2, 0, 0⟩]))) ∧
    (leafBox 1 ⟨0, 0, 0⟩ [⟨2, 0, 0⟩]).depth =
      round2 (1 + (qMax (0 : ℚ) (coords Vec3.z [⟨2, 0, 0⟩]) -
        qMin (0 : ℚ) (coords Vec3.z [⟨2, 0, 0⟩]))) ∧
    vmean ((boxGeometry 3 1 1).translate ⟨1, 0, 0⟩).positions =
      vmean [⟨0, 0, 0⟩, ⟨2, 0, 0⟩] :=
  emitted_box_dims_and_centroid 1 ⟨0, 0, 0⟩ [⟨2, 0, 0⟩] [⟨none⟩]
    ((boxGeometry 3 1 1).translate ⟨1, 0, 0⟩) (by decide)

/-- C4: a processed leaf whose first attribute record carries a colour gets
the identical normalised colour `(r/255, g/255, b/255)` on every vertex of
its box (one colour entry per vertex position); with no colour on the first
record, no colour attribute is attached. -/
theorem leaf_color_attribute (vs : ℚ) (p0 : Vec3) (ps : List Vec3)
    (a0 : AttrRecord) (rest : List AttrRecord) (g : BufferGeometry)
    (h : buildVoxelGeometry vs p0 ps (a0 :: rest) = .ok g) :
    (∀ rgb, a0.color = some rgb →
        g.colors = some (List.replicate g.positions.length (normColor rgb))) ∧
    (a0.color = none → g.colors = none) := by
  rw [buildVoxelGeometry_cons] at h
  have hg := (Except.ok.inj h).symm
  subst hg
  constructor
  · intro rgb hr
    rw [translate_colors, translate_positions_length, applyColor_positions, hr]
    rfl
  · intro hr
    rw [translate_colors, hr]
    rfl

/-- C4 witness: the colour law on a single red voxel and the no-colour law
on its attribute record shape. -/
theorem leaf_color_attribute_witness :
    (∀ rgb, (⟨some ⟨255, 0, 0⟩⟩ : AttrRecord).color = some rgb →
        ((setColorAll (boxGeometry 1 1 1) ⟨255, 0, 0⟩).translate ⟨0, 0, 0⟩).colors =
          some (List.replicate
            ((setColorAll (boxGeometry 1 1 1) ⟨255, 0, 0⟩).translate
              ⟨0, 0, 0⟩).positions.length (normColor rgb))) ∧
    ((⟨some ⟨255, 0, 0⟩⟩ : AttrRecord).color = none →
        ((setColorAll (boxGeometry 1 1 1) ⟨255, 0, 0⟩).translate ⟨0, 0, 0⟩).colors =
          none) :=
  leaf_color_attribute 1 ⟨0, 0, 0⟩ [] ⟨some ⟨255, 0, 0⟩⟩ []
    ((setColorAll (boxGeometry 1 1 1) ⟨255, 0, 0⟩).translate ⟨0, 0, 0⟩) (by decide)

/-- The mesh returned by a successful `generateMesh` carries the loader's
material reference unchanged. -/
theorem generateMesh_material (s : VoxelLoader) (oct : Octree) (mesh : Mesh)
    (h : generateMesh s oct = .ok mesh) : mesh.material = s.material := by
  unfold generateMesh at h
  cases hf : oct.leaves.foldlM (stepLeaf s.voxelSize) (none : Option BufferGeometry) with
  | error e =>
      rw [hf] at h
      have h2 : (Except.error e : Except VLError Mesh) = .ok mesh := h
      exact Except.noConfusion h2
  | ok merged =>
      rw [hf] at h
      cases merged with
      | none =>
          have h2 : (Except.error VLError.typeError : Except VLError Mesh) = .ok mesh := h
          exact Except.noConfusion h2
      | some g =>
          have h2 :
              ({ geometry := computeVertexNormals (computeFaceNormals g),
                 material := s.material } : Mesh) = mesh := Except.ok.inj h
          rw [← h2]

/-- C10: `setVoxelMaterial` mutates the supplied material object in place —
only its `vertexColors` field changes, every other material on the heap and
every other field is untouched, and no new material is allocated — stores
the reference to that same object on the loader, and every mesh produced by
`generateMesh` carries that same reference. -/
theorem setVoxelMaterial_shares_object (h : List Material) (s : VoxelLoader)
    (ref : ℕ) (m : Material) (hm : h[ref]? = some m) :
    (setVoxelMaterial h s (some ref)).1 =
      h.set ref { m with vertexColors := VertexColors } ∧
    (setVoxelMaterial h s (some ref)).1.length = h.length ∧
    (setVoxelMaterial h s (some ref)).2 = { s with material := some ref } ∧
    ∀ (oct : Octree) (mesh : Mesh),
      generateMesh (setVoxelMaterial h s (some ref)).2 oct = .ok mesh →
      mesh.material = some ref := by
  have hd : h.getD ref defaultMaterial = m := by
    rw [List.getD_eq_getElem?_getD, hm]
    rfl
  refine ⟨?_, ?_, rfl, ?_⟩
  · show h.set ref { h.getD ref defaultMaterial with vertexColors := VertexColors } = _
    rw [hd]
  · show (h.set ref _).length = h.length
    exact List.length_set h ref _
  · intro oct mesh hmesh
    exact generateMesh_material _ oct mesh hmesh

/-- C10 witness: the sharing law on a one-material heap holding a blue-ish
material with vertex colours initially off. -/
theorem setVoxelMaterial_shares_object_witness :
    (setVoxelMaterial [⟨5, 0⟩] newVoxelLoader.2 (some 0)).1 =
      [⟨5, 0⟩].set 0 { (⟨5, 0⟩ : Material) with vertexColors := VertexColors } ∧
    (setVoxelMaterial [⟨5, 0⟩] newVoxelLoader.2 (some 0)).1.length =
      [(⟨5, 0⟩ : Material)].length ∧
    (setVoxelMaterial [⟨5, 0⟩] newVoxelLoader.2 (some 0)).2 =
      { newVoxelLoader.2 with material := some 0 } ∧
    ∀ (oct : Octree) (mesh : Mesh),
      generateMesh (setVoxelMaterial [⟨5, 0⟩] newVoxelLoader.2 (some 0)).2 oct =
        .ok mesh →
      mesh.material = some 0 :=
  setVoxelMaterial_shares_object [⟨5, 0⟩] newVoxelLoader.2 0 ⟨5, 0⟩ (by decide)
